import Mathlib

/-!
Verification of the tool-augmented conversation-turn orchestrator of this
repository.

The embedded code comes from two source files:

* `src/9_Herramientas/asistente_aerolinea.py` — the airline assistant:
  `ticket_prices`, `get_ticket_price`, `handle_tool_call`, `chat`.
* `src/10_Asistentes_Multimodales/tutor_robotica_simple.py` — the robotics
  tutor: `explicar_componente_arduino`, `mostrar_codigo_ejemplo`,
  `TutorRoboticaSimple.manejar_herramienta`, `TutorRoboticaSimple.responder`.
  (`tutor_robotica_multimodal.py` has the same orchestration skeleton plus
  image generation; the history/tool bookkeeping being verified is identical.)

Modelling conventions:

* Python exceptions are an explicit `PyExc` error channel (`Except PyExc _`).
  `responder`'s top-level `try/except Exception` makes it a total function;
  `chat` has no handler, so it returns `Except PyExc _`.
* `json.loads` on a tool-call argument blob is external library code; a blob
  is modelled as its parse result: `none` when the blob is not valid JSON,
  `some object` otherwise.  The JSON payloads appearing in this repository
  are flat objects whose values are strings or booleans (`JVal`).
* `json.dumps` is modelled by `jsonDumps` (insertion order preserved; the
  `ensure_ascii` escaping of non-ASCII characters is not modelled — no
  property below depends on the byte-level rendering of accented text).
* The two `openai.chat.completions.create` calls of one turn are modelled by
  an `Endpoint` record holding one oracle per call position; responses are
  chosen arbitrarily, so theorems quantify over all endpoint behaviours.
* The module-level tool functions called by `manejar_herramienta` are passed
  through a `ToolImpls` record (dependency injection).  `defaultImpls` ties
  the record to the faithful embeddings of the Python functions; leaving the
  record abstract lets theorems quantify over tool callables that raise.
* `responderTrace` additionally records, as ghost observations, the turn
  sequence sent to each endpoint call and whether an exception was caught
  (`ok`); `responder` is the projection matching the Python signature.
* `str.lower` is modelled for the character ranges occurring in this code
  (ASCII letters plus the accented Spanish capitals).
-/

/-- Python exception values that can arise in the embedded code. -/
inductive PyExc where
  | jsonDecodeError
  | keyError (key : String)
  | indexError
  | attributeError
  | toolError (m : String)
  | apiError (m : String)
deriving DecidableEq

/-- Rendering used by Python's `f"... {e}"` interpolation of an exception. -/
def pyExcMsg : PyExc → String
  | PyExc.jsonDecodeError => "Expecting value: line 1 column 1 (char 0)"
  | PyExc.keyError k => "'" ++ k ++ "'"
  | PyExc.indexError => "list index out of range"
  | PyExc.attributeError => "'NoneType' object has no attribute 'lower'"
  | PyExc.toolError m => m
  | PyExc.apiError m => m

/-- A JSON value as used by this repository's tool payloads: a string or a
boolean (the payload objects are flat). -/
inductive JVal where
  | s (v : String)
  | b (v : Bool)
deriving DecidableEq

/-- A decoded JSON object: ordered key/value pairs (insertion order). -/
abbrev JObj := List (String × JVal)

/-- Python `d.get(k)`: `None` when the key is absent. -/
def dictGet (o : JObj) (k : String) : Option JVal :=
  (o.find? (fun kv => kv.1 == k)).map (fun kv => kv.2)

/-- Python `d[k]`: raises `KeyError` when the key is absent. -/
def dictIndex (o : JObj) (k : String) : Except PyExc JVal :=
  match dictGet o k with
  | some v => Except.ok v
  | none => Except.error (PyExc.keyError k)

/-- Python truthiness of an optional JSON value (`None`/`False`/`""` are
falsy). -/
def truthy : Option JVal → Bool
  | some (JVal.s v) => !(v == "")
  | some (JVal.b v) => v
  | none => false

/-- Python `str()` of a JSON value (used by f-string defaults). -/
def pyStr : JVal → String
  | JVal.s v => v
  | JVal.b true => "True"
  | JVal.b false => "False"

/-- Serialization of one JSON value (`json.dumps` on a leaf). -/
def jvalStr : JVal → String
  | JVal.s v => "\"" ++ v ++ "\""
  | JVal.b true => "true"
  | JVal.b false => "false"

/-- `json.dumps` on a flat object, preserving insertion order. -/
def jsonDumps (o : JObj) : String :=
  "\x7b" ++ String.intercalate (", ")
    (o.map (fun kv => "\"" ++ kv.1 ++ "\": " ++ jvalStr kv.2)) ++ "\x7d"

/-- `str.lower` on one character, for the ranges used by this code. -/
def pyLowerChar (c : Char) : Char :=
  if 'A' ≤ c ∧ c ≤ 'Z' then Char.ofNat (c.toNat + 32)
  else if c = 'Á' then 'á'
  else if c = 'É' then 'é'
  else if c = 'Í' then 'í'
  else if c = 'Ó' then 'ó'
  else if c = 'Ú' then 'ú'
  else if c = 'Ñ' then 'ñ'
  else c

/-- `str.lower`. -/
def pyLower (s : String) : String :=
  String.mk (s.toList.map pyLowerChar)

/-- Helper for substring search: does `nd` occur at the head of `hs`? -/
def subAt : List Char → List Char → Bool
  | _, [] => true
  | [], _ :: _ => false
  | a :: as, b :: bs => a == b && subAt as bs

/-- Helper for substring search: does `nd` occur anywhere in `hs`? -/
def hasSub : List Char → List Char → Bool
  | [], nd => nd.isEmpty
  | a :: as, nd => subAt (a :: as) nd || hasSub as nd

/-- Python's `needle in hay` on strings. -/
def strContains (hay nd : String) : Bool :=
  hasSub hay.toList nd.toList

/-! ## Conversation data model -/

/-- The `function` part of an OpenAI tool call: a tool name and the raw
argument blob, modelled by its JSON parse result (`none` = malformed). -/
structure ToolFunction where
  name : String
  arguments : Option JObj
deriving DecidableEq

/-- One `ToolCallRequest` as returned by the endpoint. -/
structure ToolCall where
  id : String
  function : ToolFunction
deriving DecidableEq

/-- One role-tagged entry of a conversation (the message dicts the Python
code builds and appends). -/
structure Turn where
  role : String
  content : Option String := none
  tool_calls : List ToolCall := []
  tool_call_id : Option String := none
deriving DecidableEq

/-- The `message` part of an endpoint response choice. -/
structure ChatMessage where
  content : Option String
  tool_calls : List ToolCall := []
deriving DecidableEq

/-- One element of `response.choices`. -/
structure ChatChoice where
  finish_reason : String
  message : ChatMessage
deriving DecidableEq

/-- An endpoint response. -/
structure ChatResponse where
  choices : List ChatChoice
deriving DecidableEq

/-- A response holding exactly the given choice. -/
def respOf (choice : ChatChoice) : ChatResponse :=
  { choices := [choice] }

/-- Python `response.choices[0]`: raises `IndexError` when empty. -/
def choices0 (r : ChatResponse) : Except PyExc ChatChoice :=
  match r.choices with
  | c :: _ => Except.ok c
  | [] => Except.error PyExc.indexError

/-- The Language Model Endpoint as seen by one orchestrated turn: one oracle
per call position (`first` is the call made with tool schemas, `second` the
follow-up call after tool dispatch).  An `Except.error` models the API
client raising. -/
structure Endpoint where
  first : List Turn → Except PyExc ChatResponse
  second : List Turn → Except PyExc ChatResponse

/-- The assistant message object (or its reconstruction) appended to the
working message list when the endpoint requested tool calls. -/
def assistantTurnOfMessage (m : ChatMessage) : Turn :=
  { role := "assistant", content := m.content, tool_calls := m.tool_calls }

/-! ## Airline assistant (`asistente_aerolinea.py`) -/

/-- `system_message` of the airline assistant (concatenation of the three
pieces in the source). -/
def system_message : String :=
  "Eres un asistente útil para una aerolínea llamada FlightAI. " ++
  "Da respuestas breves y corteses, de no más de una oración. " ++
  "Se siempre preciso. Si no sabes la respuesta, dilo."

/-- The simulated price database `ticket_prices`. -/
def ticket_prices : List (String × String) :=
  [("londres", "799€"), ("parís", "899€"), ("tokyo", "1400€"), ("berlín", "499€")]

/-- `get_ticket_price`: case-insensitive lookup, `"Unknown"` when absent. -/
def get_ticket_price (destination_city : String) : String :=
  ((ticket_prices.find? (fun kv => kv.1 == pyLower destination_city)).map
    (fun kv => kv.2)).getD ("Unknown")

/-- `handle_tool_call`: processes `message.tool_calls[0]` only.  Raises on an
empty tool-call list (`IndexError`), a malformed argument blob
(`JSONDecodeError`), or a missing / non-string `destination_city`
(`.lower()` on `None` → `AttributeError`).  Note there is no check of the
requested tool name: `get_ticket_price` is always the function invoked. -/
def handle_tool_call (message : ChatMessage) : Except PyExc (Turn × String) :=
  match message.tool_calls with
  | [] => Except.error PyExc.indexError
  | tool_call :: _ =>
    match tool_call.function.arguments with
    | none => Except.error PyExc.jsonDecodeError
    | some arguments =>
      match dictGet arguments ("destination_city") with
      | some (JVal.s city) =>
        let price := get_ticket_price city
        Except.ok
          ({ role := "tool",
             content := some (jsonDumps
               [("destination_city", JVal.s city), ("price", JVal.s price)]),
             tool_call_id := some tool_call.id }, city)
      | _ => Except.error PyExc.attributeError

/-- The message list `chat` builds before the first endpoint call:
`[system] + history + [user]`. -/
def chatInitial (history : List Turn) (message : String) : List Turn :=
  { role := "system", content := some system_message } ::
    (history ++ [{ role := "user", content := some message }])

/-- Result of one `chat` call plus the ghost record of the turn sequences
sent to the endpoint. -/
structure ChatTrace where
  reply : Except PyExc (Option String)
  request1 : List Turn
  request2 : Option (List Turn)

/-- `chat` of the airline assistant, instrumented with the endpoint request
payloads.  There is no exception handler in the source, so every raise
propagates into `reply`. -/
def chatTrace (ep : Endpoint) (history : List Turn) (message : String) : ChatTrace :=
  let messages := chatInitial history message
  match ep.first messages with
  | Except.error e => { reply := Except.error e, request1 := messages, request2 := none }
  | Except.ok response =>
    match choices0 response with
    | Except.error e => { reply := Except.error e, request1 := messages, request2 := none }
    | Except.ok choice =>
      if choice.finish_reason == "tool_calls" then
        match handle_tool_call choice.message with
        | Except.error e =>
          { reply := Except.error e, request1 := messages, request2 := none }
        | Except.ok tr =>
          let messages2 := messages ++ [assistantTurnOfMessage choice.message, tr.1]
          match ep.second messages2 with
          | Except.error e =>
            { reply := Except.error e, request1 := messages, request2 := some messages2 }
          | Except.ok r2 =>
            match choices0 r2 with
            | Except.error e =>
              { reply := Except.error e, request1 := messages, request2 := some messages2 }
            | Except.ok choice2 =>
              { reply := Except.ok choice2.message.content,
                request1 := messages, request2 := some messages2 }
      else
        { reply := Except.ok choice.message.content,
          request1 := messages, request2 := none }

/-- `chat(message, history)` as the source exposes it: the final assistant
content, or the propagated exception. -/
def chat (ep : Endpoint) (history : List Turn) (message : String) :
    Except PyExc (Option String) :=
  (chatTrace ep history message).reply

/-! ## Robotics tutor (`tutor_robotica_simple.py`) -/

/-- `TEMAS_ROBOTICA`: keywords triggering automatic audio generation. -/
def TEMAS_ROBOTICA : List String :=
  ["arduino", "electronica", "mecatronica", "programacion",
   "sensores", "actuadores", "motores", "circuitos", "codigo",
   "proyectos", "robotica_basica", "automatizacion"]

/-- The `explicaciones` table of `explicar_componente_arduino`. -/
def explicaciones : List (String × List (String × String)) :=
  [("led",
    [("preescolar", "Un LED es como una lucecita mágica que se enciende cuando le damos energía ⚡✨"),
     ("primaria", "Un LED es un diodo emisor de luz que convierte electricidad en luz de colores 💡"),
     ("secundaria", "Un LED es un semiconductor que emite luz cuando la corriente eléctrica pasa a través de él"),
     ("preparatoria", "Un LED es un diodo semiconductor que emite fotones mediante electroluminiscencia cuando se polariza directamente")]),
   ("sensor",
    [("preescolar", "Un sensor es como los ojos y oídos del robot, le ayuda a ver y sentir el mundo 👀👂"),
     ("primaria", "Un sensor detecta cambios en el ambiente como luz, temperatura o movimiento 🌡️"),
     ("secundaria", "Un sensor convierte magnitudes físicas en señales eléctricas que Arduino puede leer"),
     ("preparatoria", "Un sensor es un transductor que convierte variables físicas en señales eléctricas analógicas o digitales")]),
   ("resistencia",
    [("preescolar", "Una resistencia es como un obstáculo que hace que la electricidad vaya más despacio 🚧"),
     ("primaria", "Una resistencia limita la cantidad de corriente que puede pasar por un circuito ⚡"),
     ("secundaria", "Una resistencia controla el flujo de corriente eléctrica según la ley de Ohm (V=I×R)"),
     ("preparatoria", "Una resistencia es un componente pasivo que se opone al paso de la corriente eléctrica, disipando energía en forma de calor")]),
   ("motor",
    [("preescolar", "Un motor es como el músculo del robot que lo ayuda a moverse 💪🤖"),
     ("primaria", "Un motor convierte electricidad en movimiento para hacer girar ruedas o mover partes 🔄"),
     ("secundaria", "Un motor eléctrico transforma energía eléctrica en energía mecánica rotacional"),
     ("preparatoria", "Un motor es una máquina eléctrica que convierte energía eléctrica en energía mecánica mediante campos magnéticos")])]

/-- `explicar_componente_arduino`: nested `dict.get` chain with f-string
default; always sets `generar_audio` to `True`.  The arguments arrive from
decoded JSON, hence `JVal`. -/
def explicar_componente_arduino (componente nivel : JVal) : JObj :=
  let fallback := "Información sobre " ++ pyStr componente ++ " para nivel " ++ pyStr nivel
  let explicacion :=
    match componente with
    | JVal.s c =>
      match explicaciones.find? (fun kv => kv.1 == c) with
      | some kv =>
        match nivel with
        | JVal.s n => (((kv.2.find? (fun e => e.1 == n)).map (fun e => e.2)).getD fallback)
        | _ => fallback
      | none => fallback
    | _ => fallback
  [("explicacion", JVal.s explicacion), ("generar_audio", JVal.b true)]

/-- The `codigos` table of `mostrar_codigo_ejemplo` (Arduino example code;
transcribed verbatim, with `\x7b`/`\x7d` escapes for the braces). -/
def codigos : List (String × List (String × String)) :=
  [("led_parpadeo",
    [("primaria", "\n// Hacer parpadear un LED\nvoid setup() \x7b\n  pinMode(13, OUTPUT); // Pin 13 como salida\n\x7d\n\nvoid loop() \x7b\n  digitalWrite(13, HIGH); // Encender LED\n  delay(1000);           // Esperar 1 segundo\n  digitalWrite(13, LOW);  // Apagar LED\n  delay(1000);           // Esperar 1 segundo\n\x7d\n"),
     ("secundaria", "\n// Control de LED con variable de tiempo\nconst int ledPin = 13;\nconst int delayTime = 500;\n\nvoid setup() \x7b\n  pinMode(ledPin, OUTPUT);\n  Serial.begin(9600);\n\x7d\n\nvoid loop() \x7b\n  digitalWrite(ledPin, HIGH);\n  Serial.println(\"LED encendido\");\n  delay(delayTime);\n  \n  digitalWrite(ledPin, LOW);\n  Serial.println(\"LED apagado\");\n  delay(delayTime);\n\x7d\n"),
     ("preparatoria", "\n// Control avanzado de LED con PWM y comunicación serie\nconst int ledPin = 9;        // Pin PWM\nconst int potPin = A0;       // Potenciómetro\nint brightness = 0;\nint fadeAmount = 5;\n\nvoid setup() \x7b\n  pinMode(ledPin, OUTPUT);\n  Serial.begin(9600);\n  Serial.println(\"Sistema de control de LED iniciado\");\n\x7d\n\nvoid loop() \x7b\n  int potValue = analogRead(potPin);\n  brightness = map(potValue, 0, 1023, 0, 255);\n  \n  analogWrite(ledPin, brightness);\n  \n  Serial.print(\"Potenciómetro: \");\n  Serial.print(potValue);\n  Serial.print(\" - Brillo: \");\n  Serial.println(brightness);\n  \n  delay(100);\n\x7d\n")]),
   ("sensor_lectura",
    [("primaria", "\n// Leer un sensor de luz\nvoid setup() \x7b\n  Serial.begin(9600);\n\x7d\n\nvoid loop() \x7b\n  int luz = analogRead(A0);\n  Serial.print(\"Nivel de luz: \");\n  Serial.println(luz);\n  delay(500);\n\x7d\n"),
     ("secundaria", "\n// Sensor de temperatura con LED indicador\nconst int sensorPin = A0;\nconst int ledPin = 13;\n\nvoid setup() \x7b\n  pinMode(ledPin, OUTPUT);\n  Serial.begin(9600);\n\x7d\n\nvoid loop() \x7b\n  int lectura = analogRead(sensorPin);\n  float voltaje = lectura * (5.0 / 1023.0);\n  float temperatura = (voltaje - 0.5) * 100;\n  \n  Serial.print(\"Temperatura: \");\n  Serial.print(temperatura);\n  Serial.println(\" °C\");\n  \n  if (temperatura > 25) \x7b\n    digitalWrite(ledPin, HIGH);\n  \x7d else \x7b\n    digitalWrite(ledPin, LOW);\n  \x7d\n  \n  delay(1000);\n\x7d\n"),
     ("preparatoria", "\n// Sistema de monitoreo con múltiples sensores\nconst int tempPin = A0;\nconst int lightPin = A1;\nconst int ledPin = 9;\nconst int buzzerPin = 8;\n\nfloat temperatura, luz;\nunsigned long tiempoAnterior = 0;\nconst unsigned long intervalo = 1000;\n\nvoid setup() \x7b\n  pinMode(ledPin, OUTPUT);\n  pinMode(buzzerPin, OUTPUT);\n  Serial.begin(9600);\n  Serial.println(\"Sistema de monitoreo iniciado\");\n\x7d\n\nvoid loop() \x7b\n  unsigned long tiempoActual = millis();\n  \n  if (tiempoActual - tiempoAnterior >= intervalo) \x7b\n    leerSensores();\n    procesarDatos();\n    mostrarDatos();\n    tiempoAnterior = tiempoActual;\n  \x7d\n\x7d\n\nvoid leerSensores() \x7b\n  int lecturaTemp = analogRead(tempPin);\n  int lecturaLuz = analogRead(lightPin);\n  \n  temperatura = (lecturaTemp * 5.0 / 1023.0 - 0.5) * 100;\n  luz = lecturaLuz * (100.0 / 1023.0);\n\x7d\n\nvoid procesarDatos() \x7b\n  // Control de LED según temperatura\n  int brillo = map(temperatura, 20, 40, 0, 255);\n  brillo = constrain(brillo, 0, 255);\n  analogWrite(ledPin, brillo);\n  \n  // Alarma si temperatura muy alta\n  if (temperatura > 35) \x7b\n    tone(buzzerPin, 1000, 200);\n  \x7d\n\x7d\n\nvoid mostrarDatos() \x7b\n  Serial.print(\"Temp: \");\n  Serial.print(temperatura, 1);\n  Serial.print(\"°C | Luz: \");\n  Serial.print(luz, 1);\n  Serial.println(\"%\");\n\x7d\n")])]

/-- `mostrar_codigo_ejemplo`: nested `dict.get` chain with f-string default;
always sets `generar_audio` to `False`. -/
def mostrar_codigo_ejemplo (concepto nivel : JVal) : JObj :=
  let fallbackCode := "// Código de ejemplo para " ++ pyStr concepto
  let codigo :=
    match concepto with
    | JVal.s c =>
      match codigos.find? (fun kv => kv.1 == c) with
      | some kv =>
        match nivel with
        | JVal.s n => (((kv.2.find? (fun e => e.1 == n)).map (fun e => e.2)).getD fallbackCode)
        | _ => fallbackCode
      | none => fallbackCode
    | _ => fallbackCode
  [("codigo", JVal.s codigo),
   ("explicacion", JVal.s ("Ejemplo de código para " ++ pyStr concepto ++
     " adaptado al nivel " ++ pyStr nivel)),
   ("generar_audio", JVal.b false)]

/-- The module-level functions `manejar_herramienta` dispatches to.  The
`defaultImpls` instance ties the record to the faithful embeddings above;
keeping it a parameter lets theorems quantify over tool callables,
including ones that raise.  `genAudio` models `generar_audio_educativo`,
whose internal `try/except` makes it total (it returns `None` on error). -/
structure ToolImpls where
  explicar : JVal → JVal → Except PyExc JObj
  mostrar : JVal → JVal → Except PyExc JObj
  genAudio : String → Option String

/-- The actual module-level tools of `tutor_robotica_simple.py` (the Python
bodies are total on JSON values, so they never raise).  Audio generation is
an external TTS call; the oracle stands for its observable result. -/
def defaultImpls (genAudio : String → Option String) : ToolImpls :=
  { explicar := fun c n => Except.ok (explicar_componente_arduino c n)
  , mostrar := fun c n => Except.ok (mostrar_codigo_ejemplo c n)
  , genAudio := genAudio }

/-- The `{"role": "tool", "content": json.dumps(resultado), "tool_call_id": id}`
message built at the end of `manejar_herramienta`. -/
def toolMsg (resultado : JObj) (id : String) : Turn :=
  { role := "tool", content := some (jsonDumps resultado), tool_call_id := some id }

/-- `TutorRoboticaSimple.manejar_herramienta`: decode the argument blob
(raising `JSONDecodeError` on malformed JSON), dispatch on the tool name
(`else` branch synthesizes the `{"error": ...}` payload for unknown names),
and wrap the result as a tool-role message correlated to `tool_call.id`. -/
def manejar_herramienta (impls : ToolImpls) (tool_call : ToolCall) :
    Except PyExc (Turn × Option String) :=
  let function_name := tool_call.function.name
  match tool_call.function.arguments with
  | none => Except.error PyExc.jsonDecodeError
  | some arguments =>
    if function_name == "explicar_componente_arduino" then
      match dictIndex arguments ("componente") with
      | Except.error e => Except.error e
      | Except.ok c =>
        match dictIndex arguments ("nivel") with
        | Except.error e => Except.error e
        | Except.ok n =>
          match impls.explicar c n with
          | Except.error e => Except.error e
          | Except.ok resultado =>
            if truthy (dictGet resultado ("generar_audio")) then
              match dictIndex resultado ("explicacion") with
              | Except.error e => Except.error e
              | Except.ok v =>
                let audio_generado :=
                  match v with
                  | JVal.s s => impls.genAudio s
                  | JVal.b _ => none
                Except.ok (toolMsg resultado tool_call.id, audio_generado)
            else
              Except.ok (toolMsg resultado tool_call.id, none)
    else if function_name == "mostrar_codigo_ejemplo" then
      match dictIndex arguments ("concepto") with
      | Except.error e => Except.error e
      | Except.ok c =>
        match dictIndex arguments ("nivel") with
        | Except.error e => Except.error e
        | Except.ok n =>
          match impls.mostrar c n with
          | Except.error e => Except.error e
          | Except.ok resultado => Except.ok (toolMsg resultado tool_call.id, none)
    else
      Except.ok
        (toolMsg [("error", JVal.s ("Herramienta " ++ function_name ++ " no reconocida"))]
          tool_call.id, none)

/-- The `for tool_call in message.tool_calls` loop of `responder`: dispatch
each request in endpoint order, append each tool message, keep the last
truthy audio path.  Any raise aborts the whole loop (propagating to the
turn-level handler). -/
def processTools (impls : ToolImpls) :
    List ToolCall → List Turn → Option String → Except PyExc (List Turn × Option String)
  | [], mensajes, audio_resultado => Except.ok (mensajes, audio_resultado)
  | tool_call :: rest, mensajes, audio_resultado =>
    match manejar_herramienta impls tool_call with
    | Except.error e => Except.error e
    | Except.ok ra =>
      let audio_resultado :=
        match ra.2 with
        | some s => if s == "" then audio_resultado else some s
        | none => audio_resultado
      processTools impls rest (mensajes ++ [ra.1]) audio_resultado

/-- Mutable state of a `TutorRoboticaSimple` instance (the fields `responder`
reads or writes). -/
structure TutorState where
  nivel : String
  idioma : String
  historial_conversacion : List Turn
  system_prompt : String
deriving DecidableEq

/-- The message list `responder` builds before the first endpoint call:
`[system] + self.historial_conversacion + [user]`. -/
def initialMensajes (st : TutorState) (mensaje : String) : List Turn :=
  { role := "system", content := some st.system_prompt } ::
    (st.historial_conversacion ++ [{ role := "user", content := some mensaje }])

/-- The retention-cap step `if len(h) > 10: h = h[-10:]`. -/
def truncateHist (l : List Turn) : List Turn :=
  if l.length > 10 then l.drop (l.length - 10) else l

/-- Result of one `responder` call plus ghost observations: the turn
sequences sent to each endpoint call, and whether the turn completed
without an exception (`ok = false` means the `except` branch ran). -/
structure RespTrace where
  reply : Option String
  audio : Option String
  state : TutorState
  request1 : List Turn
  request2 : Option (List Turn)
  ok : Bool

/-- The `except Exception as e` branch of `responder`: error string returned,
state untouched. -/
def errTrace (st : TutorState) (req1 : List Turn) (req2 : Option (List Turn))
    (e : PyExc) : RespTrace :=
  { reply := some ("Error procesando mensaje: " ++ pyExcMsg e), audio := none,
    state := st, request1 := req1, request2 := req2, ok := false }

/-- Python falsiness of `audio_resultado` (`None` or the empty string). -/
def audioFalsy : Option String → Bool
  | none => true
  | some s => s == ""

/-- The automatic-audio block of `responder`: runs only when
`audio_resultado` is falsy; `respuesta_texto.lower()` raises
`AttributeError` when the endpoint returned `None` content; audio is
generated only when a `TEMAS_ROBOTICA` keyword occurs in the lowered user
message or reply. -/
def autoAudio (impls : ToolImpls) (mensaje : String) (respuesta_texto : Option String)
    (audio_resultado : Option String) : Except PyExc (Option String) :=
  match respuesta_texto with
  | none => Except.error PyExc.attributeError
  | some s =>
    let mensaje_lower := pyLower mensaje
    let respuesta_lower := pyLower s
    Except.ok
      (if TEMAS_ROBOTICA.any
          (fun tema => strContains mensaje_lower tema || strContains respuesta_lower tema)
       then impls.genAudio s
       else audio_resultado)

/-- Tail of `responder` after the endpoint calls: read the final content,
maybe generate automatic audio, then append the user/assistant pair to
`historial_conversacion` and apply the retention cap. -/
def responderFinish (impls : ToolImpls) (st : TutorState) (mensaje : String)
    (response : ChatResponse) (audio0 : Option String)
    (req1 : List Turn) (req2 : Option (List Turn)) : RespTrace :=
  match choices0 response with
  | Except.error e => errTrace st req1 req2 e
  | Except.ok choice2 =>
    let respuesta_texto := choice2.message.content
    match (if audioFalsy audio0 then autoAudio impls mensaje respuesta_texto audio0
           else Except.ok audio0) with
    | Except.error e => errTrace st req1 req2 e
    | Except.ok audio1 =>
      let hist1 := st.historial_conversacion ++
        [{ role := "user", content := some mensaje },
         { role := "assistant", content := respuesta_texto }]
      { reply := respuesta_texto, audio := audio1,
        state := { st with historial_conversacion := truncateHist hist1 },
        request1 := req1, request2 := req2, ok := true }

/-- `TutorRoboticaSimple.responder`, instrumented.  Mirrors the source: build
the message list, call the endpoint; on `finish_reason == "tool_calls"`
append the assistant tool-call message, dispatch every request, and make
the second endpoint call; then finish.  Every raise lands in `errTrace`
(the source's catch-all), which leaves the stored history untouched. -/
def responderTrace (impls : ToolImpls) (ep : Endpoint) (st : TutorState)
    (mensaje : String) : RespTrace :=
  let mensajes := initialMensajes st mensaje
  match ep.first mensajes with
  | Except.error e => errTrace st mensajes none e
  | Except.ok response =>
    match choices0 response with
    | Except.error e => errTrace st mensajes none e
    | Except.ok choice =>
      if choice.finish_reason == "tool_calls" then
        let message := choice.message
        let mensajes1 := mensajes ++ [assistantTurnOfMessage message]
        match processTools impls message.tool_calls mensajes1 none with
        | Except.error e => errTrace st mensajes none e
        | Except.ok ma =>
          match ep.second ma.1 with
          | Except.error e => errTrace st mensajes (some ma.1) e
          | Except.ok response2 =>
            responderFinish impls st mensaje response2 ma.2 mensajes (some ma.1)
      else
        responderFinish impls st mensaje response none mensajes none

/-- `responder` as the source exposes it: `(texto, audio)` plus the updated
instance state. -/
def responder (impls : ToolImpls) (ep : Endpoint) (st : TutorState)
    (mensaje : String) : Option String × Option String × TutorState :=
  let t := responderTrace impls ep st mensaje
  (t.reply, t.audio, t.state)

/-- A sequence of `responder` calls on one tutor instance (each call may see
its own endpoint behaviour and user message). -/
def runConversation (impls : ToolImpls) :
    List (Endpoint × String) → TutorState → TutorState
  | [], st => st
  | s :: rest, st => runConversation impls rest (responderTrace impls s.1 st s.2).state

/-! ## The user/assistant alternation invariant (for C10) -/

/-- The stored history is a sequence of (user, assistant) pairs: even length,
only those two roles, strictly alternating starting with a user turn. -/
def alternatesUA : List Turn → Bool
  | [] => true
  | [_] => false
  | u :: a :: rest => u.role == "user" && (a.role == "assistant" && alternatesUA rest)

/-! ## Concrete fixtures used by the closed theorems below -/

/-- A small tutor state: fresh instance (empty history). -/
def st0 : TutorState :=
  { nivel := "primaria", idioma := "Español", historial_conversacion := [],
    system_prompt := "sys" }

/-- The real tool implementations with a silent audio oracle. -/
def dImpls : ToolImpls := defaultImpls (fun _ => none)

/-- An endpoint whose first response is a plain text reply. -/
def epStopT : Endpoint :=
  { first := fun _ => Except.ok (respOf { finish_reason := "stop",
                                          message := { content := some ("hola!") } })
  , second := fun _ => Except.error (PyExc.apiError ("unused")) }

/-- An endpoint whose client raises on every call. -/
def epFailT : Endpoint :=
  { first := fun _ => Except.error (PyExc.apiError ("connection error"))
  , second := fun _ => Except.error (PyExc.apiError ("connection error")) }

/-- Two well-formed `get_ticket_price` requests in one response. -/
def tcA : ToolCall :=
  { id := "call_1",
    function := { name := "get_ticket_price",
                  arguments := some [("destination_city", JVal.s ("Londres"))] } }

def tcB : ToolCall :=
  { id := "call_2",
    function := { name := "get_ticket_price",
                  arguments := some [("destination_city", JVal.s ("París"))] } }

def msgTwo : ChatMessage := { content := none, tool_calls := [tcA, tcB] }

/-- Endpoint requesting two tool calls in the first response. -/
def epTwo : Endpoint :=
  { first := fun _ => Except.ok (respOf { finish_reason := "tool_calls", message := msgTwo })
  , second := fun _ => Except.ok (respOf { finish_reason := "stop",
                                           message := { content := some ("listo") } }) }

/-- Two requests for tools the tutor registry does not know. -/
def tcU1 : ToolCall :=
  { id := "u1", function := { name := "foo", arguments := some [] } }

def tcU2 : ToolCall :=
  { id := "u2", function := { name := "bar", arguments := some [] } }

def msgU : ChatMessage := { content := none, tool_calls := [tcU1, tcU2] }

def choiceU : ChatChoice := { finish_reason := "tool_calls", message := msgU }

def epToolU : Endpoint :=
  { first := fun _ => Except.ok (respOf choiceU)
  , second := fun _ => Except.ok (respOf { finish_reason := "stop",
                                           message := { content := some ("ok") } }) }

/-- The working message list after dispatching `msgU`'s two requests. -/
def msgsU : List Turn :=
  initialMensajes st0 ("hola") ++ [assistantTurnOfMessage msgU] ++
    [toolMsg [("error", JVal.s ("Herramienta foo no reconocida"))] ("u1"),
     toolMsg [("error", JVal.s ("Herramienta bar no reconocida"))] ("u2")]

/-- Tool implementations that raise when invoked. -/
def implsRaise : ToolImpls :=
  { explicar := fun _ _ => Except.error (PyExc.toolError ("boom"))
  , mostrar := fun _ _ => Except.error (PyExc.toolError ("boom"))
  , genAudio := fun _ => none }

/-- A well-formed `explicar_componente_arduino` request. -/
def tcExp : ToolCall :=
  { id := "call_5",
    function := { name := "explicar_componente_arduino",
                  arguments := some [("componente", JVal.s ("led")),
                                     ("nivel", JVal.s ("primaria"))] } }

def choiceE : ChatChoice :=
  { finish_reason := "tool_calls", message := { content := none, tool_calls := [tcExp] } }

def epToolE : Endpoint :=
  { first := fun _ => Except.ok (respOf choiceE)
  , second := fun _ => Except.ok (respOf { finish_reason := "stop",
                                           message := { content := some ("fin") } }) }

/-- A tool-call request whose argument blob is not valid JSON. -/
def tcBad : ToolCall :=
  { id := "call_7", function := { name := "get_ticket_price", arguments := none } }

def msgBad : ChatMessage := { content := none, tool_calls := [tcBad] }

def choiceBad : ChatChoice := { finish_reason := "tool_calls", message := msgBad }

def epBadChat : Endpoint :=
  { first := fun _ => Except.ok (respOf choiceBad)
  , second := fun _ => Except.ok (respOf { finish_reason := "stop",
                                           message := { content := some ("x") } }) }

/-- A request naming a tool absent from the airline registry. -/
def tcUnk : ToolCall :=
  { id := "call_9",
    function := { name := "book_flight",
                  arguments := some [("destination_city", JVal.s ("Londres"))] } }

def msgUnk : ChatMessage := { content := none, tool_calls := [tcUnk] }

def choiceUnk : ChatChoice := { finish_reason := "tool_calls", message := msgUnk }

def epUnkChat : Endpoint :=
  { first := fun _ => Except.ok (respOf choiceUnk)
  , second := fun _ => Except.ok (respOf { finish_reason := "stop",
                                           message := { content := some ("y") } }) }

/-! ## Basic facts about the traces -/

theorem responderFinish_request1 (impls : ToolImpls) (st : TutorState) (mensaje : String)
    (r : ChatResponse) (a : Option String) (q1 : List Turn) (q2 : Option (List Turn)) :
    (responderFinish impls st mensaje r a q1 q2).request1 = q1 := by
  unfold responderFinish
  split
  · rfl
  · dsimp only
    split <;> rfl

theorem responderFinish_request2 (impls : ToolImpls) (st : TutorState) (mensaje : String)
    (r : ChatResponse) (a : Option String) (q1 : List Turn) (q2 : Option (List Turn)) :
    (responderFinish impls st mensaje r a q1 q2).request2 = q2 := by
  unfold responderFinish
  split
  · rfl
  · dsimp only
    split <;> rfl

theorem responderFinish_char (impls : ToolImpls) (st : TutorState) (mensaje : String)
    (r : ChatResponse) (a : Option String) (q1 : List Turn) (q2 : Option (List Turn)) :
    (∃ e, responderFinish impls st mensaje r a q1 q2 = errTrace st q1 q2 e) ∨
    (∃ texto audio1, responderFinish impls st mensaje r a q1 q2 =
      { reply := texto, audio := audio1,
        state := { st with historial_conversacion :=
                     truncateHist (st.historial_conversacion ++
                       [{ role := "user", content := some mensaje },
                        { role := "assistant", content := texto }]) },
        request1 := q1, request2 := q2, ok := true }) := by
  unfold responderFinish
  split
  · exact Or.inl ⟨_, rfl⟩
  · dsimp only
    split
    · exact Or.inl ⟨_, rfl⟩
    · exact Or.inr ⟨_, _, rfl⟩

theorem responderTrace_request1 (impls : ToolImpls) (ep : Endpoint) (st : TutorState)
    (mensaje : String) :
    (responderTrace impls ep st mensaje).request1 = initialMensajes st mensaje := by
  unfold responderTrace
  dsimp only
  split
  · rfl
  · split
    · rfl
    · split
      · split
        · rfl
        · split
          · rfl
          · exact responderFinish_request1 ..
      · exact responderFinish_request1 ..

theorem chatTrace_request1 (ep : Endpoint) (history : List Turn) (message : String) :
    (chatTrace ep history message).request1 = chatInitial history message := by
  unfold chatTrace
  dsimp only
  split
  · rfl
  · split
    · rfl
    · split
      · split
        · rfl
        · split
          · rfl
          · split <;> rfl
      · rfl

theorem responderFinish_cases (impls : ToolImpls) (st : TutorState) (mensaje : String)
    (r : ChatResponse) (a : Option String) (q1 : List Turn) (q2 : Option (List Turn)) :
    ((responderFinish impls st mensaje r a q1 q2).ok = false ∧
     (responderFinish impls st mensaje r a q1 q2).state = st ∧
     ∃ e, (responderFinish impls st mensaje r a q1 q2).reply =
       some ("Error procesando mensaje: " ++ pyExcMsg e)) ∨
    ((responderFinish impls st mensaje r a q1 q2).ok = true ∧
     (responderFinish impls st mensaje r a q1 q2).state =
       { st with historial_conversacion :=
           truncateHist (st.historial_conversacion ++
             [{ role := "user", content := some mensaje },
              { role := "assistant",
                content := (responderFinish impls st mensaje r a q1 q2).reply }]) }) := by
  rcases responderFinish_char impls st mensaje r a q1 q2 with ⟨e, he⟩ | ⟨texto, audio1, he⟩
  · rw [he]; exact Or.inl ⟨rfl, rfl, e, rfl⟩
  · rw [he]; exact Or.inr ⟨rfl, rfl⟩

theorem responderTrace_char (impls : ToolImpls) (ep : Endpoint) (st : TutorState)
    (mensaje : String) :
    ((responderTrace impls ep st mensaje).ok = false ∧
     (responderTrace impls ep st mensaje).state = st ∧
     ∃ e, (responderTrace impls ep st mensaje).reply =
       some ("Error procesando mensaje: " ++ pyExcMsg e)) ∨
    ((responderTrace impls ep st mensaje).ok = true ∧
     (responderTrace impls ep st mensaje).state =
       { st with historial_conversacion :=
           truncateHist (st.historial_conversacion ++
             [{ role := "user", content := some mensaje },
              { role := "assistant",
                content := (responderTrace impls ep st mensaje).reply }]) }) := by
  unfold responderTrace
  dsimp only
  split
  · exact Or.inl ⟨rfl, rfl, _, rfl⟩
  · split
    · exact Or.inl ⟨rfl, rfl, _, rfl⟩
    · split
      · split
        · exact Or.inl ⟨rfl, rfl, _, rfl⟩
        · split
          · exact Or.inl ⟨rfl, rfl, _, rfl⟩
          · exact responderFinish_cases ..
      · exact responderFinish_cases ..

theorem responderTrace_first_err (impls : ToolImpls) (ep : Endpoint) (st : TutorState)
    (mensaje : String) (e : PyExc)
    (h : ep.first (initialMensajes st mensaje) = Except.error e) :
    responderTrace impls ep st mensaje = errTrace st (initialMensajes st mensaje) none e := by
  unfold responderTrace
  dsimp only
  rw [h]

theorem responderTrace_tools_err (impls : ToolImpls) (ep : Endpoint) (st : TutorState)
    (mensaje : String) (choice : ChatChoice) (e : PyExc)
    (h1 : ep.first (initialMensajes st mensaje) = Except.ok (respOf choice))
    (h2 : choice.finish_reason = "tool_calls")
    (h3 : processTools impls choice.message.tool_calls
      (initialMensajes st mensaje ++ [assistantTurnOfMessage choice.message]) none =
      Except.error e) :
    responderTrace impls ep st mensaje = errTrace st (initialMensajes st mensaje) none e := by
  unfold responderTrace
  dsimp only
  rw [h1]
  dsimp only [choices0, respOf]
  rw [h2]
  simp only [beq_self_eq_true, if_true]
  rw [h3]

theorem responderTrace_tools_second (impls : ToolImpls) (ep : Endpoint) (st : TutorState)
    (mensaje : String) (choice : ChatChoice) (msgs2 : List Turn) (audio0 : Option String)
    (h1 : ep.first (initialMensajes st mensaje) = Except.ok (respOf choice))
    (h2 : choice.finish_reason = "tool_calls")
    (h3 : processTools impls choice.message.tool_calls
      (initialMensajes st mensaje ++ [assistantTurnOfMessage choice.message]) none =
      Except.ok (msgs2, audio0)) :
    responderTrace impls ep st mensaje =
      match ep.second msgs2 with
      | Except.error e => errTrace st (initialMensajes st mensaje) (some msgs2) e
      | Except.ok response2 =>
        responderFinish impls st mensaje response2 audio0
          (initialMensajes st mensaje) (some msgs2) := by
  unfold responderTrace
  dsimp only
  rw [h1]
  dsimp only [choices0, respOf]
  rw [h2]
  simp only [beq_self_eq_true, if_true]
  rw [h3]

theorem responderTrace_stop (impls : ToolImpls) (ep : Endpoint) (st : TutorState)
    (mensaje : String) (choice : ChatChoice)
    (h1 : ep.first (initialMensajes st mensaje) = Except.ok (respOf choice))
    (h2 : ¬ choice.finish_reason = "tool_calls") :
    responderTrace impls ep st mensaje =
      responderFinish impls st mensaje (respOf choice) none
        (initialMensajes st mensaje) none := by
  unfold responderTrace
  dsimp only
  rw [h1]
  dsimp only [choices0, respOf]
  rw [if_neg]
  simp only [beq_iff_eq]
  exact h2

theorem manejar_ok_shape (impls : ToolImpls) (tc : ToolCall) (t : Turn) (a : Option String)
    (h : manejar_herramienta impls tc = Except.ok (t, a)) :
    t.role = "tool" ∧ t.tool_call_id = some tc.id := by
  unfold manejar_herramienta at h
  dsimp only at h
  repeat' split at h
  all_goals try simp only [Except.ok.injEq, Prod.mk.injEq] at h
  all_goals
    first
    | (obtain ⟨h1, h2⟩ := h
       subst h1
       exact ⟨rfl, rfl⟩)
    | exact absurd h (by simp)

theorem processTools_ok (impls : ToolImpls) (tcs : List ToolCall) :
    ∀ (acc : List Turn) (a0 : Option String) (msgs : List Turn) (a : Option String),
      processTools impls tcs acc a0 = Except.ok (msgs, a) →
      ∃ ts, msgs = acc ++ ts ∧ ts.length = tcs.length ∧
        ∀ i (hi : i < ts.length) (hj : i < tcs.length),
          (ts.get ⟨i, hi⟩).role = "tool" ∧
          (ts.get ⟨i, hi⟩).tool_call_id = some ((tcs.get ⟨i, hj⟩).id) := by
  induction tcs with
  | nil =>
    intro acc a0 msgs a h
    unfold processTools at h
    simp only [Except.ok.injEq, Prod.mk.injEq] at h
    obtain ⟨h1, -⟩ := h
    subst h1
    exact ⟨[], by simp, rfl, fun i hi hj => absurd hi (by simp)⟩
  | cons tc rest ih =>
    intro acc a0 msgs a h
    unfold processTools at h
    cases hm : manejar_herramienta impls tc with
    | error e => rw [hm] at h; simp at h
    | ok ra =>
      rw [hm] at h
      dsimp only at h
      obtain ⟨ts, hts, hlen, hidx⟩ := ih _ _ _ _ h
      refine ⟨ra.1 :: ts, ?_, by simp [hlen], ?_⟩
      · simp [hts]
      · intro i hi hj
        cases i with
        | zero =>
          simp only [List.get]
          exact manejar_ok_shape impls tc ra.1 ra.2 (by rw [hm])
        | succ i =>
          simp only [List.get]
          exact hidx i (by simpa using hi) (by simpa using hj)

theorem handle_tool_call_badjson (message : ChatMessage) (tc0 : ToolCall) (rest : List ToolCall)
    (h1 : message.tool_calls = tc0 :: rest)
    (h2 : tc0.function.arguments = none) :
    handle_tool_call message = Except.error PyExc.jsonDecodeError := by
  unfold handle_tool_call
  rw [h1]
  dsimp only
  rw [h2]

theorem handle_tool_call_dispatch (message : ChatMessage) (tc0 : ToolCall)
    (rest : List ToolCall) (c : String)
    (h1 : message.tool_calls = tc0 :: rest)
    (h2 : tc0.function.arguments = some [("destination_city", JVal.s c)]) :
    handle_tool_call message = Except.ok
      ({ role := "tool",
         content := some (jsonDumps
           [("destination_city", JVal.s c), ("price", JVal.s (get_ticket_price c))]),
         tool_call_id := some tc0.id }, c) := by
  unfold handle_tool_call
  rw [h1]
  dsimp only
  rw [h2]
  rfl

theorem handle_tool_call_ok_shape (message : ChatMessage) (t : Turn) (city : String)
    (h : handle_tool_call message = Except.ok (t, city)) :
    t.role = "tool" ∧
    ∃ tc0 rest, message.tool_calls = tc0 :: rest ∧ t.tool_call_id = some tc0.id := by
  unfold handle_tool_call at h
  cases hmt : message.tool_calls with
  | nil =>
    rw [hmt] at h
    dsimp only at h
    exact absurd h (by simp)
  | cons tc0 rest =>
    rw [hmt] at h
    dsimp only at h
    cases har : tc0.function.arguments with
    | none =>
      rw [har] at h
      dsimp only at h
      exact absurd h (by simp)
    | some arguments =>
      rw [har] at h
      dsimp only at h
      split at h
      · simp only [Except.ok.injEq, Prod.mk.injEq] at h
        obtain ⟨h1, h2⟩ := h
        subst h1
        exact ⟨rfl, tc0, rest, rfl, rfl⟩
      · exact absurd h (by simp)

theorem chatTrace_toolfail (ep : Endpoint) (history : List Turn) (message : String)
    (choice : ChatChoice) (e : PyExc)
    (h1 : ep.first (chatInitial history message) = Except.ok (respOf choice))
    (h2 : choice.finish_reason = "tool_calls")
    (h3 : handle_tool_call choice.message = Except.error e) :
    chatTrace ep history message =
      { reply := Except.error e, request1 := chatInitial history message,
        request2 := none } := by
  unfold chatTrace
  dsimp only
  rw [h1]
  dsimp only [choices0, respOf]
  rw [h2]
  simp only [beq_self_eq_true, if_true]
  rw [h3]

theorem chatTrace_tools_request2 (ep : Endpoint) (history : List Turn) (message : String)
    (choice : ChatChoice) (tr : Turn × String)
    (h1 : ep.first (chatInitial history message) = Except.ok (respOf choice))
    (h2 : choice.finish_reason = "tool_calls")
    (h3 : handle_tool_call choice.message = Except.ok tr) :
    (chatTrace ep history message).request2 =
      some (chatInitial history message ++
        [assistantTurnOfMessage choice.message, tr.1]) := by
  unfold chatTrace
  dsimp only
  rw [h1]
  dsimp only [choices0, respOf]
  rw [h2]
  simp only [beq_self_eq_true, if_true]
  rw [h3]
  dsimp only
  split
  · rfl
  · split <;> rfl

theorem alternatesUA_append_pair (l : List Turn) (u a : Turn)
    (hl : alternatesUA l = true) (hu : u.role = "user") (ha : a.role = "assistant") :
    alternatesUA (l ++ [u, a]) = true := by
  induction l using alternatesUA.induct with
  | case1 => simp [alternatesUA, hu, ha]
  | case2 x => simp [alternatesUA] at hl
  | case3 u' a' rest ih =>
    simp only [alternatesUA, Bool.and_eq_true, beq_iff_eq] at hl
    obtain ⟨h1, h2, h3⟩ := hl
    simp only [List.cons_append, alternatesUA, Bool.and_eq_true, beq_iff_eq]
    exact ⟨h1, h2, ih h3⟩

theorem alternatesUA_drop_two (l : List Turn) (h : alternatesUA l = true) :
    alternatesUA (l.drop 2) = true := by
  match l, h with
  | [], _ => rfl
  | [x], h => simp [alternatesUA] at h
  | u :: a :: rest, h =>
    simp only [alternatesUA, Bool.and_eq_true] at h
    simpa using h.2.2

theorem alternatesUA_drop_even (k : ℕ) (l : List Turn) (h : alternatesUA l = true) :
    alternatesUA (l.drop (2 * k)) = true := by
  induction k generalizing l with
  | zero => simpa using h
  | succ k ih =>
    have h2 : 2 * (k + 1) = 2 + 2 * k := by omega
    rw [h2, ← List.drop_drop]
    exact ih _ (alternatesUA_drop_two l h)

theorem alternatesUA_length_even (l : List Turn) (h : alternatesUA l = true) :
    l.length % 2 = 0 := by
  induction l using alternatesUA.induct with
  | case1 => simp
  | case2 x => simp [alternatesUA] at h
  | case3 u a rest ih =>
    simp only [alternatesUA, Bool.and_eq_true] at h
    have := ih h.2.2
    simp only [List.length_cons]
    omega

theorem alternatesUA_roles (l : List Turn) (h : alternatesUA l = true) :
    ∀ t ∈ l, t.role = "user" ∨ t.role = "assistant" := by
  induction l using alternatesUA.induct with
  | case1 => simp
  | case2 x => simp [alternatesUA] at h
  | case3 u a rest ih =>
    simp only [alternatesUA, Bool.and_eq_true, beq_iff_eq] at h
    intro t ht
    rcases ht with _ | ⟨_, ht⟩
    · exact Or.inl h.1
    · rcases ht with _ | ⟨_, ht⟩
      · exact Or.inr h.2.1
      · exact ih h.2.2 t ht

theorem alternatesUA_truncateHist (l : List Turn) (h : alternatesUA l = true) :
    alternatesUA (truncateHist l) = true := by
  unfold truncateHist
  split
  · have heven := alternatesUA_length_even l h
    have h10 : l.length - 10 = 2 * ((l.length - 10) / 2) := by omega
    rw [h10]
    exact alternatesUA_drop_even _ l h
  · exact h

theorem truncateHist_length_le (l : List Turn) : (truncateHist l).length ≤ 10 := by
  unfold truncateHist
  split
  · simp only [List.length_drop]
    omega
  · omega

/-! ## Claims -/

/-- Claim C2: for every call of `responder` that completes a turn (no
exception), exactly one user Turn and one assistant Turn (the final reply)
are appended to the stored history — the new history is the old one plus
that single pair (then capped); system and tool turns never reach it. -/
theorem claim_C2 (impls : ToolImpls) (ep : Endpoint) (st : TutorState) (mensaje : String)
    (h : (responderTrace impls ep st mensaje).ok = true) :
    (responderTrace impls ep st mensaje).state.historial_conversacion =
      truncateHist (st.historial_conversacion ++
        [{ role := "user", content := some mensaje },
         { role := "assistant",
           content := (responderTrace impls ep st mensaje).reply }]) := by
  rcases responderTrace_char impls ep st mensaje with ⟨hok, -, -⟩ | ⟨-, hstate⟩
  · rw [h] at hok; simp at hok
  · rw [hstate]

theorem claim_C2_witness :
    (responderTrace dImpls epStopT st0 ("buenas")).state.historial_conversacion =
      truncateHist (st0.historial_conversacion ++
        [{ role := "user", content := some ("buenas") },
         { role := "assistant",
           content := (responderTrace dImpls epStopT st0 ("buenas")).reply }]) :=
  claim_C2 dImpls epStopT st0 ("buenas") (by decide)

/-- Claim C3: after every `responder` call the retained history has at most
10 turns (when a turn completes, the cap is enforced by dropping from the
oldest end; on the exception path the history is untouched, so the bound
also holds across arbitrarily many successive calls), and the system
prompt, tracked in its own field, is preserved by every call. -/
theorem claim_C3 :
    (∀ (impls : ToolImpls) (ep : Endpoint) (st : TutorState) (mensaje : String),
      (responderTrace impls ep st mensaje).state.system_prompt = st.system_prompt ∧
      ((responderTrace impls ep st mensaje).ok = true →
        (responderTrace impls ep st mensaje).state.historial_conversacion.length ≤ 10)) ∧
    (∀ (impls : ToolImpls) (steps : List (Endpoint × String)) (st : TutorState),
      st.historial_conversacion.length ≤ 10 →
      (runConversation impls steps st).historial_conversacion.length ≤ 10) := by
  constructor
  · intro impls ep st mensaje
    rcases responderTrace_char impls ep st mensaje with ⟨hok, hstate, -⟩ | ⟨-, hstate⟩
    · refine ⟨by rw [hstate], fun h => ?_⟩
      rw [h] at hok; simp at hok
    · exact ⟨by rw [hstate], fun _ => by rw [hstate]; exact truncateHist_length_le _⟩
  · intro impls steps
    induction steps with
    | nil => intro st h; simpa [runConversation] using h
    | cons s rest ih =>
      intro st h
      simp only [runConversation]
      apply ih
      rcases responderTrace_char impls s.1 st s.2 with ⟨-, hstate, -⟩ | ⟨-, hstate⟩
      · rw [hstate]; exact h
      · rw [hstate]; exact truncateHist_length_le _

theorem claim_C3_witness :
    (responderTrace dImpls epStopT st0 ("buenas")).state.system_prompt = st0.system_prompt ∧
    (runConversation dImpls [(epStopT, "buenas"), (epStopT, "otra")] st0).historial_conversacion.length ≤ 10 :=
  ⟨(claim_C3.1 dImpls epStopT st0 ("buenas")).1,
   claim_C3.2 dImpls [(epStopT, "buenas"), (epStopT, "otra")] st0 (by decide)⟩

/-- Claim C7: if a Language Model Endpoint call raises (either the first
call, or the second call after tool dispatch), `responder` returns a
textual error string and the stored conversation history is exactly what
it was before the call — no partial user or assistant turn is appended. -/
theorem claim_C7 :
    (∀ (impls : ToolImpls) (ep : Endpoint) (st : TutorState) (mensaje : String) (e : PyExc),
      ep.first (initialMensajes st mensaje) = Except.error e →
      (responderTrace impls ep st mensaje).reply =
          some ("Error procesando mensaje: " ++ pyExcMsg e) ∧
      (responderTrace impls ep st mensaje).state = st ∧
      (responderTrace impls ep st mensaje).ok = false) ∧
    (∀ (impls : ToolImpls) (ep : Endpoint) (st : TutorState) (mensaje : String)
       (choice : ChatChoice) (msgs2 : List Turn) (audio0 : Option String) (e : PyExc),
      ep.first (initialMensajes st mensaje) = Except.ok (respOf choice) →
      choice.finish_reason = "tool_calls" →
      processTools impls choice.message.tool_calls
        (initialMensajes st mensaje ++ [assistantTurnOfMessage choice.message]) none =
        Except.ok (msgs2, audio0) →
      ep.second msgs2 = Except.error e →
      (responderTrace impls ep st mensaje).reply =
          some ("Error procesando mensaje: " ++ pyExcMsg e) ∧
      (responderTrace impls ep st mensaje).state = st ∧
      (responderTrace impls ep st mensaje).ok = false) := by
  constructor
  · intro impls ep st mensaje e h
    rw [responderTrace_first_err impls ep st mensaje e h]
    exact ⟨rfl, rfl, rfl⟩
  · intro impls ep st mensaje choice msgs2 audio0 e h1 h2 h3 h4
    rw [responderTrace_tools_second impls ep st mensaje choice msgs2 audio0 h1 h2 h3, h4]
    exact ⟨rfl, rfl, rfl⟩

theorem claim_C7_witness :
    (responderTrace dImpls epFailT st0 ("hola")).reply =
        some ("Error procesando mensaje: " ++ pyExcMsg (PyExc.apiError ("connection error"))) ∧
    (responderTrace dImpls epFailT st0 ("hola")).state = st0 ∧
    (responderTrace dImpls epFailT st0 ("hola")).ok = false :=
  claim_C7.1 dImpls epFailT st0 ("hola") (PyExc.apiError ("connection error")) rfl

/-- Claim C8: when the prior history holds no system-role turn, the turn
sequence sent to the endpoint (by `responder` and by `chat`) contains
exactly one system-role turn, and it is in first position. -/
theorem claim_C8 :
    (∀ (impls : ToolImpls) (ep : Endpoint) (st : TutorState) (mensaje : String),
      (∀ t ∈ st.historial_conversacion, ¬ t.role = "system") →
      (responderTrace impls ep st mensaje).request1.countP
          (fun t => t.role == "system") = 1 ∧
      (responderTrace impls ep st mensaje).request1.head?.map Turn.role =
        some ("system")) ∧
    (∀ (ep : Endpoint) (history : List Turn) (message : String),
      (∀ t ∈ history, ¬ t.role = "system") →
      (chatTrace ep history message).request1.countP
          (fun t => t.role == "system") = 1 ∧
      (chatTrace ep history message).request1.head?.map Turn.role =
        some ("system")) := by
  constructor
  · intro impls ep st mensaje h
    rw [responderTrace_request1]
    have h0 : st.historial_conversacion.countP (fun t => t.role == "system") = 0 :=
      List.countP_eq_zero.mpr (fun t ht => by simp [h t ht])
    constructor
    · simp [initialMensajes, List.countP_cons, List.countP_append, h0]
    · simp [initialMensajes]
  · intro ep history message h
    rw [chatTrace_request1]
    have h0 : history.countP (fun t => t.role == "system") = 0 :=
      List.countP_eq_zero.mpr (fun t ht => by simp [h t ht])
    constructor
    · simp [chatInitial, List.countP_cons, List.countP_append, h0]
    · simp [chatInitial]

theorem claim_C8_witness :
    (responderTrace dImpls epStopT st0 ("hola")).request1.countP
        (fun t => t.role == "system") = 1 ∧
    (chatTrace epTwo [] ("hola")).request1.countP
        (fun t => t.role == "system") = 1 :=
  ⟨(claim_C8.1 dImpls epStopT st0 ("hola") (by simp [st0])).1,
   (claim_C8.2 epTwo [] ("hola") (by simp)).1⟩

/-- Claim C9 fails as stated: the price table keys are the Spanish city
names, so `get_ticket_price("london")` is `"Unknown"`, not `"799€"`. -/
theorem claim_C9_counterexample :
    get_ticket_price ("london") = "Unknown" ∧ ¬ ("Unknown" : String) = "799€" :=
  ⟨by decide, by decide⟩

/-- Claim C9 (amended): `get_ticket_price` is case-insensitive in its
argument; it maps `"londres"` (the table key; any letter case) to
`"799€"`; cities not in the table — including `"Nairobi"` and the English
spelling `"london"` — yield the literal `"Unknown"`; the result is never
the empty string, and the function is total (never raises). -/
theorem claim_C9_amended :
    (∀ s t, pyLower s = pyLower t → get_ticket_price s = get_ticket_price t) ∧
    get_ticket_price ("londres") = "799€" ∧
    get_ticket_price ("Londres") = "799€" ∧
    get_ticket_price ("LONDRES") = "799€" ∧
    get_ticket_price ("Nairobi") = "Unknown" ∧
    get_ticket_price ("london") = "Unknown" ∧
    (∀ s, ¬ get_ticket_price s = "") := by
  refine ⟨?_, by decide, by decide, by decide, by decide, by decide, ?_⟩
  · intro s t h
    unfold get_ticket_price
    rw [h]
  · intro s
    unfold get_ticket_price
    cases hf : ticket_prices.find? (fun kv => kv.1 == pyLower s) with
    | none => simp
    | some kv =>
      have hmem := List.mem_of_find?_eq_some hf
      simp only [ticket_prices, List.mem_cons, List.not_mem_nil, or_false] at hmem
      rcases hmem with rfl | rfl | rfl | rfl <;> simp

theorem claim_C9_witness :
    get_ticket_price ("LoNdReS") = get_ticket_price ("londres") :=
  claim_C9_amended.1 ("LoNdReS") ("londres") (by decide)

/-- Claim C10: the stored history of a tutor only ever holds alternating
user/assistant pairs (user first, even length, no other roles): the
property is preserved by every `responder` call — the even cap of 10 never
splits a pair — and hence holds after any number of calls on a fresh
instance; the last conjunct unfolds what the invariant says. -/
theorem claim_C10 :
    (∀ (impls : ToolImpls) (ep : Endpoint) (st : TutorState) (mensaje : String),
      alternatesUA st.historial_conversacion = true →
      alternatesUA (responderTrace impls ep st mensaje).state.historial_conversacion = true) ∧
    (∀ (impls : ToolImpls) (steps : List (Endpoint × String)) (st : TutorState),
      alternatesUA st.historial_conversacion = true →
      alternatesUA (runConversation impls steps st).historial_conversacion = true) ∧
    (∀ l, alternatesUA l = true →
      l.length % 2 = 0 ∧ ∀ t ∈ l, t.role = "user" ∨ t.role = "assistant") := by
  have step : ∀ (impls : ToolImpls) (ep : Endpoint) (st : TutorState) (mensaje : String),
      alternatesUA st.historial_conversacion = true →
      alternatesUA (responderTrace impls ep st mensaje).state.historial_conversacion = true := by
    intro impls ep st mensaje h
    rcases responderTrace_char impls ep st mensaje with ⟨-, hstate, -⟩ | ⟨-, hstate⟩
    · rw [hstate]; exact h
    · rw [hstate]
      exact alternatesUA_truncateHist _ (alternatesUA_append_pair _ _ _ h rfl rfl)
  refine ⟨step, ?_, fun l h => ⟨alternatesUA_length_even l h, alternatesUA_roles l h⟩⟩
  intro impls steps
  induction steps with
  | nil => intro st h; simpa [runConversation] using h
  | cons s rest ih =>
    intro st h
    simp only [runConversation]
    exact ih _ (step impls s.1 st s.2 h)

theorem claim_C10_witness :
    alternatesUA (responderTrace dImpls epStopT st0 ("hola")).state.historial_conversacion = true :=
  claim_C10.1 dImpls epStopT st0 ("hola") (by decide)

/-- Claim C1 fails as stated for `chat`: when the first response carries two
ToolCallRequests, `handle_tool_call` processes only `tool_calls[0]`, so
exactly one tool-role Turn — not two — is appended before the second
endpoint request. -/
theorem claim_C1_counterexample :
    epTwo.first (chatInitial [] ("hola")) =
      Except.ok (respOf { finish_reason := "tool_calls", message := msgTwo }) ∧
    msgTwo.tool_calls.length = 2 ∧
    ((chatTrace epTwo [] ("hola")).request2.getD []).countP
      (fun t => t.role == "tool") = 1 :=
  ⟨rfl, rfl, by decide⟩

/-- Claim C1 (amended): in `responder`, if the first response has
finish-reason `tool_calls` with N requests and the dispatch loop completes
without raising, exactly N tool-role Turns are appended before the second
endpoint request, one per request in endpoint order, each `tool_call_id`
equal to its originating request id.  `chat`, by contrast, dispatches only
`tool_calls[0]`: when its handling succeeds, exactly one tool-role Turn is
appended, correlated to the first request's id. -/
theorem claim_C1_amended :
    (∀ (impls : ToolImpls) (ep : Endpoint) (st : TutorState) (mensaje : String)
       (choice : ChatChoice) (msgs2 : List Turn) (audio0 : Option String),
      ep.first (initialMensajes st mensaje) = Except.ok (respOf choice) →
      choice.finish_reason = "tool_calls" →
      processTools impls choice.message.tool_calls
        (initialMensajes st mensaje ++ [assistantTurnOfMessage choice.message]) none =
        Except.ok (msgs2, audio0) →
      (responderTrace impls ep st mensaje).request2 = some msgs2 ∧
      ∃ ts, msgs2 = (initialMensajes st mensaje ++ [assistantTurnOfMessage choice.message]) ++ ts ∧
        ts.length = choice.message.tool_calls.length ∧
        ∀ i (hi : i < ts.length) (hj : i < choice.message.tool_calls.length),
          (ts.get ⟨i, hi⟩).role = "tool" ∧
          (ts.get ⟨i, hi⟩).tool_call_id = some ((choice.message.tool_calls.get ⟨i, hj⟩).id)) ∧
    (∀ (ep : Endpoint) (history : List Turn) (message : String)
       (choice : ChatChoice) (tr : Turn × String),
      ep.first (chatInitial history message) = Except.ok (respOf choice) →
      choice.finish_reason = "tool_calls" →
      handle_tool_call choice.message = Except.ok tr →
      (chatTrace ep history message).request2 =
        some (chatInitial history message ++ [assistantTurnOfMessage choice.message, tr.1]) ∧
      tr.1.role = "tool" ∧
      ∃ tc0 rest, choice.message.tool_calls = tc0 :: rest ∧
        tr.1.tool_call_id = some tc0.id) := by
  constructor
  · intro impls ep st mensaje choice msgs2 audio0 h1 h2 h3
    constructor
    · rw [responderTrace_tools_second impls ep st mensaje choice msgs2 audio0 h1 h2 h3]
      split
      · rfl
      · exact responderFinish_request2 ..
    · exact processTools_ok impls choice.message.tool_calls _ _ _ _ h3
  · intro ep history message choice tr h1 h2 h3
    refine ⟨chatTrace_tools_request2 ep history message choice tr h1 h2 h3, ?_, ?_⟩
    · exact (handle_tool_call_ok_shape choice.message tr.1 tr.2 (by rw [h3])).1
    · exact (handle_tool_call_ok_shape choice.message tr.1 tr.2 (by rw [h3])).2

theorem claim_C1_witness :
    (responderTrace dImpls epToolU st0 ("hola")).request2 = some msgsU :=
  (claim_C1_amended.1 dImpls epToolU st0 ("hola") choiceU msgsU none rfl rfl (by rfl)).1

/-- Claim C4 fails as stated: a raising tool callable is not converted to an
error-shaped ToolResult and the turn does not proceed to the second
endpoint request — the exception aborts the turn and only the turn-level
handler catches it (returning the error string with the state untouched). -/
theorem claim_C4_counterexample :
    (responderTrace implsRaise epToolE st0 ("hola")).request2 = none ∧
    (responderTrace implsRaise epToolE st0 ("hola")).reply =
      some ("Error procesando mensaje: boom") ∧
    (responderTrace implsRaise epToolE st0 ("hola")).state = st0 ∧
    (responderTrace implsRaise epToolE st0 ("hola")).ok = false :=
  ⟨by decide, by decide, by decide, by decide⟩

/-- Claim C4 (amended): when a tool callable raises during dispatch, the
exception propagates out of the dispatch loop to `responder`'s turn-level
`except` handler: `responder` still returns a string (the error message)
and the stored history is untouched, but no error-shaped ToolResult enters
the tool-result channel and the second endpoint request never happens.
(In `chat` there is no handler at all, but its only registered tool is
total.) -/
theorem claim_C4_amended (impls : ToolImpls) (ep : Endpoint) (st : TutorState)
    (mensaje : String) (choice : ChatChoice) (e : PyExc)
    (h1 : ep.first (initialMensajes st mensaje) = Except.ok (respOf choice))
    (h2 : choice.finish_reason = "tool_calls")
    (h3 : processTools impls choice.message.tool_calls
      (initialMensajes st mensaje ++ [assistantTurnOfMessage choice.message]) none =
      Except.error e) :
    (responderTrace impls ep st mensaje).reply =
        some ("Error procesando mensaje: " ++ pyExcMsg e) ∧
    (responderTrace impls ep st mensaje).state = st ∧
    (responderTrace impls ep st mensaje).request2 = none ∧
    (responderTrace impls ep st mensaje).ok = false := by
  rw [responderTrace_tools_err impls ep st mensaje choice e h1 h2 h3]
  exact ⟨rfl, rfl, rfl, rfl⟩

theorem claim_C4_witness :
    (responderTrace implsRaise epToolE st0 ("hola")).reply =
        some ("Error procesando mensaje: " ++ pyExcMsg (PyExc.toolError ("boom"))) ∧
    (responderTrace implsRaise epToolE st0 ("hola")).request2 = none :=
  ⟨(claim_C4_amended implsRaise epToolE st0 ("hola") choiceE
      (PyExc.toolError ("boom")) rfl rfl (by rfl)).1,
   (claim_C4_amended implsRaise epToolE st0 ("hola") choiceE
      (PyExc.toolError ("boom")) rfl rfl (by rfl)).2.2.1⟩

/-- Claim C5 fails as stated: a ToolCallRequest whose argument blob is not
valid JSON makes `json.loads` raise before any tool runs; no error payload
is synthesized, and in `chat` the exception propagates out of the
orchestration function. -/
theorem claim_C5_counterexample :
    chat epBadChat [] ("hola") = Except.error PyExc.jsonDecodeError :=
  by rfl

/-- Claim C5 (amended): malformed JSON arguments abort the tool dispatch
with a `JSONDecodeError` instead of producing a correlated error payload:
`chat` propagates the exception to its caller; `responder` catches it at
turn level, returning the error string with the history untouched; in both
functions no second endpoint request is made and no tool is invoked. -/
theorem claim_C5_amended :
    (∀ (ep : Endpoint) (history : List Turn) (message : String) (choice : ChatChoice)
       (tc0 : ToolCall) (rest : List ToolCall),
      ep.first (chatInitial history message) = Except.ok (respOf choice) →
      choice.finish_reason = "tool_calls" →
      choice.message.tool_calls = tc0 :: rest →
      tc0.function.arguments = none →
      chat ep history message = Except.error PyExc.jsonDecodeError ∧
      (chatTrace ep history message).request2 = none) ∧
    (∀ (impls : ToolImpls) (ep : Endpoint) (st : TutorState) (mensaje : String)
       (choice : ChatChoice) (tc0 : ToolCall) (rest : List ToolCall),
      ep.first (initialMensajes st mensaje) = Except.ok (respOf choice) →
      choice.finish_reason = "tool_calls" →
      choice.message.tool_calls = tc0 :: rest →
      tc0.function.arguments = none →
      (responderTrace impls ep st mensaje).reply =
        some ("Error procesando mensaje: " ++ pyExcMsg PyExc.jsonDecodeError) ∧
      (responderTrace impls ep st mensaje).state = st ∧
      (responderTrace impls ep st mensaje).request2 = none ∧
      (responderTrace impls ep st mensaje).ok = false) := by
  constructor
  · intro ep history message choice tc0 rest h1 h2 h3 h4
    have hfail := handle_tool_call_badjson choice.message tc0 rest h3 h4
    have ht := chatTrace_toolfail ep history message choice PyExc.jsonDecodeError h1 h2 hfail
    constructor
    · unfold chat
      rw [ht]
    · rw [ht]
  · intro impls ep st mensaje choice tc0 rest h1 h2 h3 h4
    have hman : manejar_herramienta impls tc0 = Except.error PyExc.jsonDecodeError := by
      unfold manejar_herramienta
      rw [h4]
    have hproc : processTools impls choice.message.tool_calls
        (initialMensajes st mensaje ++ [assistantTurnOfMessage choice.message]) none =
        Except.error PyExc.jsonDecodeError := by
      rw [h3]
      unfold processTools
      rw [hman]
    rw [responderTrace_tools_err impls ep st mensaje choice PyExc.jsonDecodeError h1 h2 hproc]
    exact ⟨rfl, rfl, rfl, rfl⟩

theorem claim_C5_witness :
    chat epBadChat [] ("buenas") = Except.error PyExc.jsonDecodeError ∧
    (responderTrace dImpls epBadChat st0 ("buenas")).request2 = none :=
  ⟨(claim_C5_amended.1 epBadChat [] ("buenas") choiceBad tcBad [] rfl rfl rfl rfl).1,
   (claim_C5_amended.2 dImpls epBadChat st0 ("buenas") choiceBad tcBad [] rfl rfl rfl rfl).2.2.1⟩

/-- Claim C6 fails as stated for `chat`: `handle_tool_call` never checks the
requested tool name, so a request naming the unknown tool `book_flight` is
silently dispatched to `get_ticket_price` — the tool Turn carries the
price payload, not `{"error": "tool not recognized"}`. -/
theorem claim_C6_counterexample :
    ((chatTrace epUnkChat [] ("hola")).request2.getD []).getLast? =
      some { role := "tool",
             content := some (jsonDumps
               [("destination_city", JVal.s ("Londres")), ("price", JVal.s ("799€"))]),
             tool_call_id := some ("call_9") } ∧
    ¬ (jsonDumps [("destination_city", JVal.s ("Londres")), ("price", JVal.s ("799€"))]) =
      (jsonDumps [("error", JVal.s ("tool not recognized"))]) :=
  ⟨by rfl, by decide⟩

/-- Claim C6 (amended): in the tutor, `manejar_herramienta` answers a request
naming an unknown tool with a ToolResult whose payload is
`{"error": "Herramienta <name> no reconocida"}` (the Spanish wording of
the source, not the literal `"tool not recognized"`), correlated to the
request's call id, and the turn proceeds to the second endpoint request.
`chat` performs no name check at all: whatever the requested name, it
invokes `get_ticket_price` on the decoded `destination_city`. -/
theorem claim_C6_amended :
    (∀ (impls : ToolImpls) (tc : ToolCall) (o : JObj),
      tc.function.arguments = some o →
      ¬ tc.function.name = "explicar_componente_arduino" →
      ¬ tc.function.name = "mostrar_codigo_ejemplo" →
      manejar_herramienta impls tc = Except.ok
        (toolMsg [("error", JVal.s ("Herramienta " ++ tc.function.name ++ " no reconocida"))]
          tc.id, none)) ∧
    (∀ (impls : ToolImpls) (ep : Endpoint) (st : TutorState) (mensaje : String)
       (choice : ChatChoice) (tc : ToolCall) (o : JObj),
      ep.first (initialMensajes st mensaje) = Except.ok (respOf choice) →
      choice.finish_reason = "tool_calls" →
      choice.message.tool_calls = [tc] →
      tc.function.arguments = some o →
      ¬ tc.function.name = "explicar_componente_arduino" →
      ¬ tc.function.name = "mostrar_codigo_ejemplo" →
      (responderTrace impls ep st mensaje).request2 =
        some (initialMensajes st mensaje ++ [assistantTurnOfMessage choice.message] ++
          [toolMsg [("error", JVal.s ("Herramienta " ++ tc.function.name ++ " no reconocida"))]
            tc.id])) ∧
    (∀ (message : ChatMessage) (tc0 : ToolCall) (rest : List ToolCall) (c : String),
      message.tool_calls = tc0 :: rest →
      tc0.function.arguments = some [("destination_city", JVal.s c)] →
      handle_tool_call message = Except.ok
        ({ role := "tool",
           content := some (jsonDumps
             [("destination_city", JVal.s c), ("price", JVal.s (get_ticket_price c))]),
           tool_call_id := some tc0.id }, c)) := by
  have parta : ∀ (impls : ToolImpls) (tc : ToolCall) (o : JObj),
      tc.function.arguments = some o →
      ¬ tc.function.name = "explicar_componente_arduino" →
      ¬ tc.function.name = "mostrar_codigo_ejemplo" →
      manejar_herramienta impls tc = Except.ok
        (toolMsg [("error", JVal.s ("Herramienta " ++ tc.function.name ++ " no reconocida"))]
          tc.id, none) := by
    intro impls tc o h1 h2 h3
    unfold manejar_herramienta
    rw [h1]
    dsimp only
    rw [if_neg (by simp [h2]), if_neg (by simp [h3])]
  refine ⟨parta, ?_, fun message tc0 rest c h1 h2 =>
    handle_tool_call_dispatch message tc0 rest c h1 h2⟩
  intro impls ep st mensaje choice tc o h1 h2 h3 h4 h5 h6
  have hman := parta impls tc o h4 h5 h6
  have hproc : processTools impls choice.message.tool_calls
      (initialMensajes st mensaje ++ [assistantTurnOfMessage choice.message]) none =
      Except.ok (initialMensajes st mensaje ++ [assistantTurnOfMessage choice.message] ++
        [toolMsg [("error", JVal.s ("Herramienta " ++ tc.function.name ++ " no reconocida"))]
          tc.id], none) := by
    rw [h3]
    unfold processTools
    rw [hman]
    rfl
  rw [responderTrace_tools_second impls ep st mensaje choice _ none h1 h2 hproc]
  split
  · rfl
  · exact responderFinish_request2 ..

theorem claim_C6_witness :
    (responderTrace dImpls epUnkChat st0 ("hola")).request2 =
      some (initialMensajes st0 ("hola") ++ [assistantTurnOfMessage msgUnk] ++
        [toolMsg [("error", JVal.s ("Herramienta book_flight no reconocida"))] ("call_9")]) :=
  claim_C6_amended.2.1 dImpls epUnkChat st0 ("hola") choiceUnk tcUnk
    [("destination_city", JVal.s ("Londres"))] rfl rfl rfl rfl (by decide) (by decide)
